import Mathlib

/-!
Verification of `src/5-typing-annotations/assets/typeguard_example.py`.

The script defines

    @typechecked
    def multiply(x: int, y: int) -> int:
        return x * y

    print(multiply("hello", 3))

We embed the Python runtime values that can flow through this program
(integers, booleans and strings), Python multiplication on them, and the
checked-call wrapper produced by the `typechecked` decorator.  The wrapper
itself lives in the external `typeguard` library; its behaviour is modelled
from the specification (validate each argument against its declared
parameter type in order, invoke the body only when all arguments pass,
validate the result against the declared return type, surface a
type-mismatch error otherwise).
-/

/-- Runtime type tags of the Python values reachable in this example. -/
inductive PyType where
  | int
  | bool
  | str
deriving DecidableEq

/-- Python runtime values reachable in this example. -/
inductive PyVal where
  | vInt : Int → PyVal
  | vBool : Bool → PyVal
  | vStr : String → PyVal
deriving DecidableEq

/-- The runtime type of a value.  In Python, `type(True)` is `bool`. -/
def typeOf : PyVal → PyType
  | .vInt _ => .int
  | .vBool _ => .bool
  | .vStr _ => .str

/-- The name of a runtime type, as Python spells it. -/
def typeName : PyType → String
  | .int => "int"
  | .bool => "bool"
  | .str => "str"

/-- Python subtyping among these types: `bool` is a subclass of `int`
(`isinstance(True, int)` holds); every type is a subtype of itself. -/
def isSubtype (a b : PyType) : Bool :=
  a == b || (a == .bool && b == .int)

/-- An instance check, as the wrapper performs it: the value's runtime type
must be the declared type or a subtype of it. -/
def matchesType (v : PyVal) (t : PyType) : Bool :=
  isSubtype (typeOf v) t

/-- Python's implicit conversion of an operand of `*` to an integer:
integers are themselves, `True` is 1 and `False` is 0, strings are not
integers. -/
def pyIntVal : PyVal → Option Int
  | .vInt n => some n
  | .vBool b => some (if b then 1 else 0)
  | .vStr _ => none

/-- Python string repetition `s * n`: `n` copies of `s`, the empty string
when `n` is not positive. -/
def strRepeat (s : String) (n : Int) : String :=
  String.join (List.replicate n.toNat s)

/-- Python's `*` on the values of this example: integer multiplication when
both operands are integer-like (booleans coerce to 0 or 1, and the result
is an `int`), string repetition when one operand is a string and the other
integer-like, undefined (a runtime `TypeError` inside the expression)
otherwise.  This is the body `x * y` of `multiply`. -/
def pyMul : PyVal → PyVal → Option PyVal
  | .vStr s, v =>
    match pyIntVal v with
    | some n => some (.vStr (strRepeat s n))
    | none => none
  | v, .vStr s =>
    match pyIntVal v with
    | some n => some (.vStr (strRepeat s n))
    | none => none
  | a, b =>
    match pyIntVal a, pyIntVal b with
    | some m, some n => some (.vInt (m * n))
    | _, _ => none

/-- The context carried by a type-mismatch failure: the offending parameter
name (or "return"), the declared type, and the actual value's type. -/
structure TypeMismatch where
  param : String
  declared : PyType
  actual : PyType
deriving DecidableEq

/-- Modelled from the spec: the human-readable message of a type-mismatch
failure, naming the offending parameter (or "return"), the actual type and
the declared (expected) type. -/
def TypeMismatch.message (m : TypeMismatch) : String :=
  m.param ++ " (" ++ typeName m.actual ++ ") is not an instance of "
    ++ typeName m.declared

/-- Outcome of one checked call: a normal return value, a type-mismatch
failure raised by the wrapper, or an error raised inside the body itself. -/
inductive CallResult where
  | ok : PyVal → CallResult
  | typeMismatch : TypeMismatch → CallResult
  | bodyError : CallResult
deriving DecidableEq

/-- Modelled from the spec: the checked-call wrapper produced by the
`typechecked` decorator, specialised to a two-parameter function (the arity
of `multiply`).  It validates each actual argument against its declared
parameter type in parameter order; on the first mismatch it fails before
the body runs.  When both arguments pass it invokes the body, then
validates the produced value against the declared return type.  The second
component of the result records whether the underlying body was invoked. -/
def checkedCall2 (p1 p2 : String × PyType) (ret : PyType)
    (body : PyVal → PyVal → Option PyVal) (a1 a2 : PyVal) :
    CallResult × Bool :=
  if matchesType a1 p1.2 then
    if matchesType a2 p2.2 then
      match body a1 a2 with
      | none => (.bodyError, true)
      | some r =>
        if matchesType r ret then (.ok r, true)
        else (.typeMismatch ⟨"return", ret, typeOf r⟩, true)
    else (.typeMismatch ⟨p2.1, p2.2, typeOf a2⟩, false)
  else (.typeMismatch ⟨p1.1, p1.2, typeOf a1⟩, false)

/-- The checked function `multiply(x: int, y: int) -> int: return x * y`. -/
def multiply (a b : PyVal) : CallResult × Bool :=
  checkedCall2 ("x", PyType.int) ("y", PyType.int) PyType.int pyMul a b

/-- The top-level call of the script, `multiply("hello", 3)`. -/
def scriptResult : CallResult × Bool :=
  multiply (PyVal.vStr "hello") (PyVal.vInt 3)

/-- What the top-level `print` would print: the returned value when the
call succeeds, nothing when it fails. -/
def printedOutput : Option PyVal :=
  match scriptResult.1 with
  | .ok v => some v
  | _ => none

/-- Shared evaluation lemma: on two integer arguments the checked call
passes both argument checks, the body produces the integer product, the
return check passes, and the wrapper returns the product with the body
invoked. -/
theorem multiply_int_eval (x y : Int) :
    multiply (PyVal.vInt x) (PyVal.vInt y)
      = (CallResult.ok (PyVal.vInt (x * y)), true) := rfl

/-- C1: for every pair of integers x and y, the checked call multiply(x, y)
succeeds (both argument checks and the return check pass) and returns
exactly the underlying body's result, the product x * y, unchanged. -/
theorem multiply_ints_returns_product (x y : Int) :
    pyMul (PyVal.vInt x) (PyVal.vInt y) = some (PyVal.vInt (x * y))
    ∧ multiply (PyVal.vInt x) (PyVal.vInt y)
        = (CallResult.ok (PyVal.vInt (x * y)), true) :=
  ⟨rfl, multiply_int_eval x y⟩

/-- C4: the checked call multiply(3, 4) succeeds and returns 12. -/
theorem multiply_3_4_eq_12 :
    multiply (PyVal.vInt 3) (PyVal.vInt 4)
      = (CallResult.ok (PyVal.vInt 12), true) := rfl

/-- C3: the top-level call multiply("hello", 3) fails with a type mismatch
naming the first parameter x, declared type int and actual type str, and
the body is not invoked; consequently the print on that line never
produces output. -/
theorem script_call_fails :
    scriptResult
      = (CallResult.typeMismatch ⟨"x", PyType.int, PyType.str⟩, false)
    ∧ printedOutput = none :=
  ⟨rfl, rfl⟩

/-- C9: the body x * y is itself defined on the mismatched input
("hello", 3) — Python string repetition yields "hellohellohello" — yet the
checked call fails with a type mismatch without invoking the body, because
the argument check rejects the call first. -/
theorem body_defined_but_wrapper_rejects :
    pyMul (PyVal.vStr "hello") (PyVal.vInt 3)
      = some (PyVal.vStr "hellohellohello")
    ∧ multiply (PyVal.vStr "hello") (PyVal.vInt 3)
        = (CallResult.typeMismatch ⟨"x", PyType.int, PyType.str⟩, false) :=
  ⟨rfl, rfl⟩

/-- C2: whenever at least one actual argument fails its declared parameter
type check, the wrapper fails with a type mismatch and the underlying body
is never invoked: the outcome is the same for every possible body, and
the invocation flag is false. -/
theorem mismatched_arg_rejected_before_body (a b : PyVal)
    (h : matchesType a PyType.int = false ∨ matchesType b PyType.int = false) :
    ∃ m : TypeMismatch, ∀ body : PyVal → PyVal → Option PyVal,
      checkedCall2 ("x", PyType.int) ("y", PyType.int) PyType.int body a b
        = (CallResult.typeMismatch m, false) := by
  cases hA : matchesType a PyType.int with
  | false =>
    exact ⟨⟨"x", PyType.int, typeOf a⟩, fun body => by
      simp [checkedCall2, hA]⟩
  | true =>
    cases hB : matchesType b PyType.int with
    | false =>
      exact ⟨⟨"y", PyType.int, typeOf b⟩, fun body => by
        simp [checkedCall2, hA, hB]⟩
    | true =>
      rcases h with h | h
      · exact absurd hA (by simp [h])
      · exact absurd hB (by simp [h])

/-- Witness for C2 at the script's own invalid call ("hello", 3). -/
theorem mismatched_arg_rejected_before_body_witness :
    (matchesType (PyVal.vStr "hello") PyType.int = false
      ∨ matchesType (PyVal.vInt 3) PyType.int = false)
    ∧ ∃ m : TypeMismatch, ∀ body : PyVal → PyVal → Option PyVal,
        checkedCall2 ("x", PyType.int) ("y", PyType.int) PyType.int body
          (PyVal.vStr "hello") (PyVal.vInt 3)
          = (CallResult.typeMismatch m, false) :=
  ⟨Or.inl rfl,
    mismatched_arg_rejected_before_body (PyVal.vStr "hello") (PyVal.vInt 3)
      (Or.inl rfl)⟩

/-- C5: when both arguments pass their checks but the body produces a value
not of the declared return type, the wrapper fails with a type mismatch on
"return" and the failure occurs only after the body was invoked (the
invocation flag is true); moreover for multiply, whose body maps two ints
to their int product, this branch is unreachable on integer arguments: the
call always succeeds with the product. -/
theorem return_check_after_body (a b : PyVal) (r : PyVal)
    (body : PyVal → PyVal → Option PyVal)
    (h1 : matchesType a PyType.int = true)
    (h2 : matchesType b PyType.int = true)
    (hb : body a b = some r)
    (hr : matchesType r PyType.int = false) :
    checkedCall2 ("x", PyType.int) ("y", PyType.int) PyType.int body a b
      = (CallResult.typeMismatch ⟨"return", PyType.int, typeOf r⟩, true)
    ∧ ∀ x y : Int, multiply (PyVal.vInt x) (PyVal.vInt y)
        = (CallResult.ok (PyVal.vInt (x * y)), true) :=
  ⟨by simp [checkedCall2, h1, h2, hb, hr], fun x y => multiply_int_eval x y⟩

/-- Witness for C5: a body that returns the string "oops" on the valid
arguments (1, 2) makes the wrapper fail on "return" after invoking it. -/
theorem return_check_after_body_witness :
    checkedCall2 ("x", PyType.int) ("y", PyType.int) PyType.int
        (fun _ _ => some (PyVal.vStr "oops")) (PyVal.vInt 1) (PyVal.vInt 2)
      = (CallResult.typeMismatch ⟨"return", PyType.int, PyType.str⟩, true)
    ∧ ∀ x y : Int, multiply (PyVal.vInt x) (PyVal.vInt y)
        = (CallResult.ok (PyVal.vInt (x * y)), true) :=
  return_check_after_body (PyVal.vInt 1) (PyVal.vInt 2) (PyVal.vStr "oops")
    (fun _ _ => some (PyVal.vStr "oops")) rfl rfl rfl rfl

/-- C6: every type-mismatch failure raised by the checked call multiply
carries the context identifying the mismatch: the offending parameter
("x" or "y", or "return" for the return value), the declared type, and the
actual value's runtime type, and its human-readable message names the
offending location, the actual type and the declared type. -/
theorem mismatch_carries_context (a b : PyVal) (m : TypeMismatch)
    (inv : Bool)
    (h : multiply a b = (CallResult.typeMismatch m, inv)) :
    ((m.param = "x" ∧ m.declared = PyType.int ∧ m.actual = typeOf a
        ∧ matchesType a PyType.int = false)
      ∨ (m.param = "y" ∧ m.declared = PyType.int ∧ m.actual = typeOf b
          ∧ matchesType b PyType.int = false)
      ∨ (m.param = "return" ∧ m.declared = PyType.int))
    ∧ m.message = m.param ++ " (" ++ typeName m.actual
        ++ ") is not an instance of " ++ typeName m.declared := by
  refine ⟨?_, rfl⟩
  cases hA : matchesType a PyType.int with
  | false =>
    simp [multiply, checkedCall2, hA] at h
    exact Or.inl ⟨by simp [← h.1], by simp [← h.1], by simp [← h.1], rfl⟩
  | true =>
    cases hB : matchesType b PyType.int with
    | false =>
      simp [multiply, checkedCall2, hA, hB] at h
      exact Or.inr (Or.inl ⟨by simp [← h.1], by simp [← h.1],
        by simp [← h.1], rfl⟩)
    | true =>
      cases hM : pyMul a b with
      | none => simp [multiply, checkedCall2, hA, hB, hM] at h
      | some r =>
        cases hR : matchesType r PyType.int with
        | true => simp [multiply, checkedCall2, hA, hB, hM, hR] at h
        | false =>
          simp [multiply, checkedCall2, hA, hB, hM, hR] at h
          exact Or.inr (Or.inr ⟨by simp [← h.1], by simp [← h.1]⟩)

/-- Witness for C6 at the script's invalid call ("hello", 3). -/
theorem mismatch_carries_context_witness :
    (((⟨"x", PyType.int, PyType.str⟩ : TypeMismatch).param = "x"
        ∧ (⟨"x", PyType.int, PyType.str⟩ : TypeMismatch).declared = PyType.int
        ∧ (⟨"x", PyType.int, PyType.str⟩ : TypeMismatch).actual
            = typeOf (PyVal.vStr "hello")
        ∧ matchesType (PyVal.vStr "hello") PyType.int = false)
      ∨ ((⟨"x", PyType.int, PyType.str⟩ : TypeMismatch).param = "y"
          ∧ (⟨"x", PyType.int, PyType.str⟩ : TypeMismatch).declared = PyType.int
          ∧ (⟨"x", PyType.int, PyType.str⟩ : TypeMismatch).actual
              = typeOf (PyVal.vInt 3)
          ∧ matchesType (PyVal.vInt 3) PyType.int = false)
      ∨ ((⟨"x", PyType.int, PyType.str⟩ : TypeMismatch).param = "return"
          ∧ (⟨"x", PyType.int, PyType.str⟩ : TypeMismatch).declared
              = PyType.int))
    ∧ (⟨"x", PyType.int, PyType.str⟩ : TypeMismatch).message
        = (⟨"x", PyType.int, PyType.str⟩ : TypeMismatch).param ++ " ("
          ++ typeName (⟨"x", PyType.int, PyType.str⟩ : TypeMismatch).actual
          ++ ") is not an instance of "
          ++ typeName (⟨"x", PyType.int, PyType.str⟩ : TypeMismatch).declared :=
  mismatch_carries_context (PyVal.vStr "hello") (PyVal.vInt 3)
    ⟨"x", PyType.int, PyType.str⟩ false rfl

/-- C7: the checked call is deterministic and self-contained: its outcome
is a function of the call's arguments alone, so two calls to multiply with
the same arguments produce the same outcome; there is no state parameter
for the outcome to depend on, matching the wrapper's lack of shared
mutable state. -/
theorem multiply_deterministic (a b a2 b2 : PyVal)
    (ha : a2 = a) (hb : b2 = b) :
    multiply a2 b2 = multiply a b := by
  rw [ha, hb]

/-- Witness for C7: two calls with the arguments (3, 4) agree. -/
theorem multiply_deterministic_witness :
    multiply (PyVal.vInt 3) (PyVal.vInt 4)
      = multiply (PyVal.vInt 3) (PyVal.vInt 4) :=
  multiply_deterministic (PyVal.vInt 3) (PyVal.vInt 4)
    (PyVal.vInt 3) (PyVal.vInt 4) rfl rfl

/-- C8: boolean arguments are accepted, since bool is a Python subtype of
int: for every pair of booleans the checked call passes both argument
checks and the return check and returns the integer product of the two
booleans coerced to 0 or 1; in particular multiply(True, True) returns the
integer 1 rather than failing with a type mismatch. -/
theorem multiply_accepts_bools :
    (∀ p q : Bool, multiply (PyVal.vBool p) (PyVal.vBool q)
        = (CallResult.ok
            (PyVal.vInt ((if p then 1 else 0) * (if q then 1 else 0))),
          true))
    ∧ multiply (PyVal.vBool true) (PyVal.vBool true)
        = (CallResult.ok (PyVal.vInt 1), true) :=
  ⟨fun p q => by cases p <;> cases q <;> rfl, rfl⟩

/-- C10: the checked function multiply is commutative on integer inputs:
multiply(x, y) and multiply(y, x) produce the same outcome. -/
theorem multiply_comm (x y : Int) :
    multiply (PyVal.vInt x) (PyVal.vInt y)
      = multiply (PyVal.vInt y) (PyVal.vInt x) := by
  rw [multiply_int_eval, multiply_int_eval, Int.mul_comm]
